import Mathlib

set_option maxRecDepth 16384

deriving instance DecidableEq for Except

/-!
Shallow embedding of the playwriter CDP relay core, as it appears in the
repository snapshot: the cookie-command interception of `routeCdpCommand`
(given in `tasks/cdp-cookie-workaround.md` and `specs/features.md`), the
lifecycle helpers `ensurePersistentRelay` / `waitForExtension` and the
`compareVersions` helper (given in `tasks/persistent-relay.md`), the error
classes of `playwriter/src/errors.ts`, and the `/extension-status` endpoint
handler (given in `tasks/persistent-relay.md`).

Conventions of the embedding:
  - JS strings are Lean `String`; `null` / `undefined` become `Option`.
  - A JS object field that the source never writes is represented by `none`.
  - Async calls that can reject are modelled with `Except`; an `await` on a
    rejected promise aborts the enclosing function and propagates the error,
    exactly as in the source.
  - Network and process effects are made explicit: the extension is an
    oracle function from requests to responses, and side effects such as
    killing a port or spawning a child are collected in an action trace.
-/

/-! ## Data model: targets and cookies -/

/-- Target info as stored by the relay for each connected target
(`t.targetInfo.url`, `t.targetInfo.title` in the source). -/
structure TargetInfo where
  url : String
  title : String
deriving DecidableEq, Repr

/-- An entry of the `connectedTargets` map of `cdp-relay.ts`: a target the
extension has attached, together with the session bound to it. -/
structure ConnectedTarget where
  targetId : String
  sessionId : String
  targetInfo : TargetInfo
deriving DecidableEq, Repr

/-- A CDP cookie. The relay reads `name`, `domain` and `path`; the remaining
fields (`value`, and the optional `partitionKey` of partitioned cookies) are
carried by the browser and travel through the relay untouched. -/
structure Cookie where
  name : String
  value : String
  domain : String
  path : String
  partitionKey : Option String
deriving DecidableEq, Repr

/-! ## The extension oracle

`sendToExtension({ method: 'forwardCDPCommand', params: {...} })` sends the
extension an envelope whose params carry a session id, a CDP method name and
the CDP params object. The extension is modelled as a function from such
requests to responses; a rejected promise is an `ExtResp.err`. -/

/-- The CDP params object placed inside a `forwardCDPCommand` envelope. Only
the shapes the cookie interception builds are needed: `{}`,
`{ cookies }`, and `{ name, domain, path }` with an optional `partitionKey`
slot (which the source never writes; it is `none` in every request the relay
builds, see `networkDeleteCookiesCmd`). -/
inductive CdpParams where
  | emptyParams : CdpParams
  | setCookiesParams (cookies : List Cookie) : CdpParams
  | deleteCookiesParams (name : String) (domain : String) (path : String)
      (partitionKey : Option String) : CdpParams
deriving DecidableEq, Repr

/-- The params of a `forwardCDPCommand` envelope:
`{ sessionId, method, params }`. -/
structure ForwardCmd where
  sessionId : String
  method : String
  params : CdpParams
deriving DecidableEq, Repr

/-- The result object a `sendToExtension` promise resolves with. The cookie
code only ever reads the optional `cookies` field (`result?.cookies`), so the
rest of the object is irrelevant to the embedding. -/
structure ExtResult where
  cookies : Option (List Cookie)
deriving DecidableEq, Repr

/-- Outcome of one `sendToExtension` call: resolution with a result object,
or rejection with an error message. -/
inductive ExtResp where
  | ok (result : ExtResult) : ExtResp
  | err (message : String) : ExtResp
deriving DecidableEq, Repr

/-! ## The cookie interception of routeCdpCommand -/

/-- Helper from `tasks/cdp-cookie-workaround.md`, Task 1:

```
function getAnyActiveSessionId(): string | undefined {
  const firstTarget = connectedTargets.values().next().value
  return firstTarget?.sessionId
}
```

A JS `Map` iterates in insertion order, and `connectedTargets` entries are
inserted when the extension reports attachment, so the first entry is the
earliest-attached target. The map is modelled as a list in that same
insertion order. -/
def getAnyActiveSessionId (connectedTargets : List ConnectedTarget) : Option String :=
  (connectedTargets.head?).map (fun firstTarget => firstTarget.sessionId)

/-- Session resolution used by all three cookie cases:
`const targetSessionId = sessionId || getAnyActiveSessionId()`.
Session ids are nonempty strings, so JS falsiness coincides with absence. -/
def resolveSessionId (sessionId : Option String)
    (connectedTargets : List ConnectedTarget) : Option String :=
  match sessionId with
  | some sid => some sid
  | none => getAnyActiveSessionId connectedTargets

/-- The message of the error thrown when no session is available
(`tasks/cdp-cookie-workaround.md`, Tasks 2 to 4). -/
def noPagesMessage : String :=
  "No pages available for cookie operation. Click the playwriter extension icon on a tab first."

/-- The `Network.getCookies` request the relay builds:
`{ sessionId, method: 'Network.getCookies', params: {} }`. -/
def networkGetCookiesCmd (sid : String) : ForwardCmd :=
  { sessionId := sid, method := "Network.getCookies", params := CdpParams.emptyParams }

/-- The `Network.deleteCookies` request the relay builds for one cookie:

```
{ sessionId, method: 'Network.deleteCookies',
  params: { name: cookie.name, domain: cookie.domain, path: cookie.path } }
```

The params literal sets only `name`, `domain` and `path`; no `partitionKey`
field is written, hence `none` in that slot. -/
def networkDeleteCookiesCmd (sid : String) (cookie : Cookie) : ForwardCmd :=
  { sessionId := sid, method := "Network.deleteCookies",
    params := CdpParams.deleteCookiesParams cookie.name cookie.domain cookie.path none }

/-- The deletion loop of the `Storage.clearCookies` case:

```
for (const cookie of cookies) {
  await sendToExtension({ ... 'Network.deleteCookies' ... })
}
```

Each iteration awaits the extension with no try/catch around it, so a
rejection aborts the loop and propagates. The function returns the requests
issued, and the propagated error message when an await rejected. -/
def runDeleteLoop (ext : ForwardCmd → ExtResp) (sid : String) :
    List Cookie → List ForwardCmd × Option String
  | [] => ([], none)
  | cookie :: rest =>
    let cmd := networkDeleteCookiesCmd sid cookie
    match ext cmd with
    | ExtResp.err e => ([cmd], some e)
    | ExtResp.ok _ =>
      let tail := runDeleteLoop ext sid rest
      (cmd :: tail.1, tail.2)

/-- Which of the three intercepted `Storage` cookie methods an incoming
client command names, together with the relevant incoming params
(`params?.cookies` for `Storage.setCookies`, possibly absent). -/
inductive StorageMethod where
  | getCookies : StorageMethod
  | setCookies (cookiesParam : Option (List Cookie)) : StorageMethod
  | clearCookies : StorageMethod
deriving DecidableEq, Repr

/-- The value a `routeCdpCommand` cookie case resolves with: either the
`sendToExtension` result returned unchanged, or the literal `{}` returned at
the end of the `Storage.clearCookies` case. -/
inductive RouteResult where
  | extResult (r : ExtResult) : RouteResult
  | emptyObject : RouteResult
deriving DecidableEq, Repr

/-- The three cookie cases of `routeCdpCommand` from
`tasks/cdp-cookie-workaround.md`, Tasks 2 to 4. The result pairs the list of
`forwardCDPCommand` requests issued to the extension, in order, with the
outcome: `Except.error` when the case throws (no session available) or an
awaited `sendToExtension` rejects, `Except.ok` when it resolves. -/
def routeCdpCommand (ext : ForwardCmd → ExtResp)
    (connectedTargets : List ConnectedTarget)
    (method : StorageMethod) (sessionId : Option String) :
    List ForwardCmd × Except String RouteResult :=
  match resolveSessionId sessionId connectedTargets with
  | none => ([], Except.error noPagesMessage)
  | some targetSessionId =>
    match method with
    | StorageMethod.getCookies =>
      let cmd := networkGetCookiesCmd targetSessionId
      match ext cmd with
      | ExtResp.ok r => ([cmd], Except.ok (RouteResult.extResult r))
      | ExtResp.err e => ([cmd], Except.error e)
    | StorageMethod.setCookies cookiesParam =>
      let cmd : ForwardCmd :=
        { sessionId := targetSessionId, method := "Network.setCookies",
          params := CdpParams.setCookiesParams (cookiesParam.getD []) }
      match ext cmd with
      | ExtResp.ok r => ([cmd], Except.ok (RouteResult.extResult r))
      | ExtResp.err e => ([cmd], Except.error e)
    | StorageMethod.clearCookies =>
      let cmd := networkGetCookiesCmd targetSessionId
      match ext cmd with
      | ExtResp.err e => ([cmd], Except.error e)
      | ExtResp.ok result =>
        let cookies := result.cookies.getD []
        let deletes := runDeleteLoop ext targetSessionId cookies
        match deletes.2 with
        | some e => (cmd :: deletes.1, Except.error e)
        | none => (cmd :: deletes.1, Except.ok RouteResult.emptyObject)

/-! ## Answering the client -/

/-- A CDP error object `{ code, message }`. -/
structure CdpError where
  code : Int
  message : String
deriving DecidableEq, Repr

/-- The response frame delivered to the originating client:
`{ id, result }` or `{ id, error }`. -/
structure ClientResponse where
  id : Nat
  result : Option RouteResult
  error : Option CdpError
deriving DecidableEq, Repr

/-- Modelled from the spec: the caller of `routeCdpCommand` inside
`cdp-relay.ts` is not part of the repository snapshot. Per the spec it
answers the originating client under the original request id, turning a
resolved value into a result frame and a thrown error into a CDP error frame
with code `-32000` whose message is the thrown message. -/
def cdpAnswer (requestId : Nat) (outcome : Except String RouteResult) : ClientResponse :=
  match outcome with
  | Except.ok v => { id := requestId, result := some v, error := none }
  | Except.error m =>
    { id := requestId, result := none, error := some { code := -32000, message := m } }

/-- Substring containment on strings, on their character lists. -/
def containsSubstring (s sub : String) : Prop := sub.data <:+: s.data

instance (s sub : String) : Decidable (containsSubstring s sub) := by
  unfold containsSubstring; infer_instance

/-! ## Attach order

The `connectedTargets` map has no explicit timestamp; attach order is the
insertion order of the map, which the list embedding preserves. To reason
about it, a registry entry is paired with its position in the
extension-reported attach sequence, and a well-formed registry lists entries
in strictly increasing attach order. -/

/-- A registry entry together with its attach sequence number. -/
structure AttachedTarget where
  attachOrder : Nat
  target : ConnectedTarget
deriving DecidableEq, Repr

/-- The `connectedTargets` list underlying an annotated registry. -/
def registryTargets (l : List AttachedTarget) : List ConnectedTarget :=
  l.map (fun a => a.target)

/-- Well-formedness of an annotated registry: entries appear in strictly
increasing attach order, as a JS `Map` populated at attach time iterates. -/
def AttachOrdered (l : List AttachedTarget) : Prop :=
  l.Pairwise (fun a b => a.attachOrder < b.attachOrder)

instance (l : List AttachedTarget) : Decidable (AttachOrdered l) := by
  unfold AttachOrdered; infer_instance

/-! ## compareVersions (tasks/persistent-relay.md, Task 3)

```
function compareVersions(v1: string, v2: string): number {
  const parts1 = v1.split('.').map(Number)
  const parts2 = v2.split('.').map(Number)
  const len = Math.max(parts1.length, parts2.length)
  for (let i = 0; i < len; i++) {
    const p1 = parts1[i] || 0
    const p2 = parts2[i] || 0
    if (p1 !== p2) { return p1 - p2 }
  }
  return 0
}
```

`String.prototype.split` is modelled by an explicit recursion over the
character list (the built-in `String.split` of Lean does not reduce in the
kernel); `Number(s) || 0` is modelled by `componentValue`. -/

/-- Split on the dot character, JS-style: `""` splits to `[""]`, separators
delimit possibly empty components. `acc` holds the current component in
reverse. -/
def splitDotAux : List Char → List Char → List String
  | [], acc => [String.mk acc.reverse]
  | c :: cs, acc =>
    if c = '.' then String.mk acc.reverse :: splitDotAux cs []
    else splitDotAux cs (c :: acc)

/-- JS `v.split('.')`. -/
def splitDot (v : String) : List String := splitDotAux v.data []

/-- Decimal value of a digit list, most significant first. -/
def decimalValue (cs : List Char) : Nat :=
  cs.foldl (fun n c => 10 * n + (c.toNat - ('0').toNat)) 0

/-- Models `Number(s) || 0` applied to one dot-component: a nonempty string
of decimal digits evaluates to its value; any component on which `Number`
yields `NaN` or `0` (and the out-of-range reads `parts[i]`) collapses to 0.
On the numeric version strings the claims quantify over, this agrees with
the JS semantics. -/
def componentValue (s : String) : Int :=
  if s.data ≠ [] ∧ s.data.all (fun c => c.isDigit) then (decimalValue s.data : Int)
  else 0

/-- Tail of the comparison loop of `compareVersions` once `parts1` is
exhausted: at those indices `p1 = parts1[i] || 0 = 0`, so the loop returns
`0 - p2` at the first nonzero `p2` and 0 when `parts2` too is exhausted. -/
def versionRestLoop : List Int → Int
  | [] => 0
  | p2 :: rest2 => if (0 : Int) ≠ p2 then 0 - p2 else versionRestLoop rest2

/-- The comparison loop of `compareVersions`: indices run to the longer
length with missing entries read as 0 (`parts[i] || 0`); the first index
where the components differ decides the sign via their difference, and 0 is
returned when no index differs. The recursion walks `parts1` and reads the
matching entry of `parts2` (`headD 0` is exactly `parts2[i] || 0`), visiting
the indices `0 ≤ i < max(len1, len2)` of the source loop. -/
def versionCompareLoop : List Int → List Int → Int
  | [], parts2 => versionRestLoop parts2
  | p1 :: rest1, parts2 =>
    let p2 := parts2.headD 0
    if p1 ≠ p2 then p1 - p2 else versionCompareLoop rest1 parts2.tail

/-- compareVersions from `tasks/persistent-relay.md`, Task 3. -/
def compareVersions (v1 v2 : String) : Int :=
  versionCompareLoop ((splitDot v1).map componentValue) ((splitDot v2).map componentValue)

/-- A numeric version string: every dot-component is a nonempty string of
decimal digits (the shape `compareVersions` is used on: package versions
such as `0.0.47`). -/
def NumericVersion (v : String) : Prop :=
  ∀ s ∈ splitDot v, s.data ≠ [] ∧ s.data.all (fun c => c.isDigit)

instance (v : String) : Decidable (NumericVersion v) := by
  unfold NumericVersion; infer_instance

/-! ## Error classes (playwriter/src/errors.ts) -/

/-- Modelled from the spec: `utils.ts` is not part of the repository
snapshot; it exports `LOG_FILE_PATH`, the path of the relay log file that
`RelayServerStartError` embeds in its message (`memory` notes place it at
`/tmp/playwriter/relay-server.log`). Its exact value is irrelevant to the
claims. -/
def LOG_FILE_PATH : String := "/tmp/playwriter/relay-server.log"

/-- A constructed error object: its `name`, final `message`, and `port`
field. -/
structure RelayServerErrorData where
  name : String
  message : String
  port : Nat
deriving DecidableEq, Repr

/-- Base class constructor: prefixes `[Playwriter] ` and appends
` (port N)`, stores the port. -/
def mkRelayServerError (message : String) (port : Nat) : RelayServerErrorData :=
  { name := "RelayServerError",
    message := "[Playwriter] " ++ message ++ " (port " ++ toString port ++ ")",
    port := port }

/-- `ExtensionNotConnectedError`: fixed message through the base
constructor, then `name` overwritten. -/
def mkExtensionNotConnectedError (port : Nat) : RelayServerErrorData :=
  { mkRelayServerError
      "Extension not connected. Please click the Playwriter extension icon on a Chrome tab."
      port with
    name := "ExtensionNotConnectedError" }

/-- `RelayServerStartError`: message embedding the log path, then `name`
overwritten. -/
def mkRelayServerStartError (port : Nat) : RelayServerErrorData :=
  { mkRelayServerError
      ("Failed to start relay server. Check logs at: " ++ LOG_FILE_PATH)
      port with
    name := "RelayServerStartError" }

/-! ## ensurePersistentRelay (tasks/persistent-relay.md, Task 3)

The probe and poll network effects are supplied by an environment:
`existingVersion` is the result of the initial `getServerVersion(port)`
(`none` models the `null` returned on any fetch failure), and `polls` lists
the successive `getServerVersion(port)` results seen by the post-spawn loop,
one per `sleep(500)` iteration that fits before the timeout elapses. Process
effects (killing the port holder, spawning the detached child) are returned
as an ordered action trace. -/

def DEFAULT_PORT : Nat := 19988
def DEFAULT_TIMEOUT : Nat := 10000

/-- Options of `ensurePersistentRelay` (`port?`, `timeout?`). -/
structure EnsureOptions where
  port : Option Nat := none
  timeout : Option Nat := none
deriving DecidableEq, Repr

/-- The network environment a run of `ensurePersistentRelay` observes. -/
structure RelayEnv where
  existingVersion : Option String
  polls : List (Option String)
deriving DecidableEq, Repr

/-- Observable process effects of `ensurePersistentRelay`. -/
inductive RelayAction where
  | killPort (port : Nat) : RelayAction
  | spawnDetached : RelayAction
deriving DecidableEq, Repr

/-- The result object `{ started, version, port }`. -/
structure EnsureResult where
  started : Bool
  version : String
  port : Nat
deriving DecidableEq, Repr

/-- The post-spawn poll loop:

```
while (Date.now() - startTime < timeout) {
  await sleep(500)
  const version = await getServerVersion(port)
  if (version === VERSION) { return { started: true, version, port } }
}
throw new RelayServerStartError(port)
```

An exhausted poll list is an elapsed timeout. -/
def pollForVersion (VERSION : String) (port : Nat) :
    List (Option String) → Except RelayServerErrorData EnsureResult
  | [] => Except.error (mkRelayServerStartError port)
  | v :: rest =>
    if v = some VERSION then Except.ok { started := true, version := VERSION, port := port }
    else pollForVersion VERSION port rest

/-- ensurePersistentRelay from `tasks/persistent-relay.md`, Task 3:

```
const port = options?.port ?? DEFAULT_PORT
const timeout = options?.timeout ?? DEFAULT_TIMEOUT
const existingVersion = await getServerVersion(port)
if (existingVersion !== null && compareVersions(existingVersion, VERSION) >= 0) {
  return { started: false, version: existingVersion, port }
}
if (existingVersion !== null) { try { await killPortProcess(port); await sleep(500) } catch {} }
...spawn detached child, unref...
...poll loop, throw RelayServerStartError(port) on timeout...
```

The timeout fixes how many poll iterations fit before the deadline; in the
embedding that count is the length of `env.polls`. -/
def ensurePersistentRelay (env : RelayEnv) (VERSION : String) (options : EnsureOptions) :
    List RelayAction × Except RelayServerErrorData EnsureResult :=
  let port := options.port.getD DEFAULT_PORT
  match env.existingVersion with
  | some existingVersion =>
    if compareVersions existingVersion VERSION ≥ 0 then
      ([], Except.ok { started := false, version := existingVersion, port := port })
    else
      ([RelayAction.killPort port, RelayAction.spawnDetached],
        pollForVersion VERSION port env.polls)
  | none =>
    ([RelayAction.spawnDetached], pollForVersion VERSION port env.polls)

/-! ## The /extension-status endpoint (tasks/persistent-relay.md, Task 2)

```
app.get('/extension-status', (c) => {
  const pages = Array.from(connectedTargets.values()).map((t) => ({
    targetId: t.targetId, url: t.targetInfo.url, title: t.targetInfo.title,
  }))
  return c.json({
    connected: extensionWs !== null,
    pageCount: connectedTargets.size,
    pages,
  })
})
```

`extensionWs` is the single extension socket slot of `cdp-relay.ts`: it is
set to the socket when the `/extension` WebSocket opens and reset to `null`
when it closes, so it holds the extension WebSocket currently in the open
state, if any. -/

/-- A `{ targetId, url, title }` entry of the `pages` array. -/
structure PageEntry where
  targetId : String
  url : String
  title : String
deriving DecidableEq, Repr

/-- An open WebSocket context (its identity is irrelevant beyond being
present in the `extensionWs` slot). -/
structure WsContext where
  socketId : Nat
deriving DecidableEq, Repr

/-- The `{ connected, pageCount, pages }` JSON body; also the shape
`waitForExtension` parses from the endpoint. -/
structure ExtensionStatusResponse where
  connected : Bool
  pageCount : Nat
  pages : List PageEntry
deriving DecidableEq, Repr

/-- The `GET /extension-status` handler body. -/
def extensionStatusHandler (extensionWs : Option WsContext)
    (connectedTargets : List ConnectedTarget) : ExtensionStatusResponse :=
  let pages := connectedTargets.map (fun t =>
    { targetId := t.targetId, url := t.targetInfo.url, title := t.targetInfo.title : PageEntry })
  { connected := extensionWs.isSome,
    pageCount := connectedTargets.length,
    pages := pages }

/-- Number of extension WebSockets in the open state: the `extensionWs`
slot holds the open socket or `null`, so the count is 1 or 0. -/
def openExtensionSocketCount (extensionWs : Option WsContext) : Nat :=
  match extensionWs with
  | some _ => 1
  | none => 0

/-! ## waitForExtension (tasks/persistent-relay.md, Task 4)

```
const port = options?.port ?? DEFAULT_PORT
const timeout = options?.timeout ?? 30000
const pollInterval = options?.pollInterval ?? 500
const startTime = Date.now()
while (Date.now() - startTime < timeout) {
  try {
    const response = await fetch('http://127.0.0.1:PORT/extension-status', ...)
    if (response.ok) {
      const status = await response.json()
      if (status.connected && status.pageCount > 0) {
        return { connected: true, pageCount: status.pageCount }
      }
    }
  } catch { }
  await sleep(pollInterval)
}
throw new ExtensionNotConnectedError(port)
```

The environment supplies `statusAt k`, the status the k-th poll observes
(`none` models a failed fetch or a non-ok response, both swallowed).
Counting the `sleep(pollInterval)` as the duration of an iteration, the
k-th iteration starts at elapsed time `k * pollInterval` and runs iff that
is below the timeout, so `numPolls timeout pollInterval` iterations run
before the deadline (a positive interval is assumed; the source never sets
it to 0). -/

/-- Options of `waitForExtension` (`port?`, `timeout?`, `pollInterval?`). -/
structure WaitOptions where
  port : Option Nat := none
  timeout : Option Nat := none
  pollInterval : Option Nat := none
deriving DecidableEq, Repr

/-- The `{ connected, pageCount }` result object. -/
structure WaitForExtensionResult where
  connected : Bool
  pageCount : Nat
deriving DecidableEq, Repr

/-- How many poll iterations start before the deadline: the number of
`k` with `k * pollInterval < timeout`, i.e. the timeout divided by the
interval, rounded up. -/
def numPolls (timeout pollInterval : Nat) : Nat :=
  (timeout + pollInterval - 1) / pollInterval

/-- The condition `status.connected && status.pageCount > 0` on one polled
status (`false` for a failed poll). -/
def goodStatus : Option ExtensionStatusResponse → Bool
  | some status => status.connected && decide (0 < status.pageCount)
  | none => false

/-- The polling loop of `waitForExtension`: `fuel` iterations remain before
the deadline, `k` is the index of the current poll. -/
def waitLoop (statusAt : Nat → Option ExtensionStatusResponse) (port : Nat) :
    Nat → Nat → Except RelayServerErrorData WaitForExtensionResult
  | 0, _ => Except.error (mkExtensionNotConnectedError port)
  | fuel + 1, k =>
    match statusAt k with
    | some status =>
      if status.connected && decide (0 < status.pageCount) then
        Except.ok { connected := true, pageCount := status.pageCount }
      else waitLoop statusAt port fuel (k + 1)
    | none => waitLoop statusAt port fuel (k + 1)

/-- waitForExtension from `tasks/persistent-relay.md`, Task 4. -/
def waitForExtension (statusAt : Nat → Option ExtensionStatusResponse)
    (options : WaitOptions) : Except RelayServerErrorData WaitForExtensionResult :=
  let port := options.port.getD DEFAULT_PORT
  let timeout := options.timeout.getD 30000
  let pollInterval := options.pollInterval.getD 500
  waitLoop statusAt port (numPolls timeout pollInterval) 0

/-- Resolution test on an extension response, as the cookie code observes it:
an awaited `sendToExtension` either resolves (`ok`) or rejects (`err`). -/
def ExtResp.isOk : ExtResp → Bool
  | ExtResp.ok _ => true
  | ExtResp.err _ => false

/-! ## Concrete fixtures used to evaluate the model on closed inputs -/

/-- A single attached example target bound to session S1. -/
def exampleTarget : ConnectedTarget :=
  { targetId := "T1", sessionId := "S1",
    targetInfo := { url := "https://example.com/", title := "Example" } }

/-- A registry holding just `exampleTarget`. -/
def exampleRegistry : List ConnectedTarget := [exampleTarget]

/-- A second attached example target bound to session S2. -/
def exampleTarget2 : ConnectedTarget :=
  { targetId := "T2", sessionId := "S2",
    targetInfo := { url := "https://example.org/", title := "Example 2" } }

/-- Plain example cookies without partition keys. -/
def cookieA : Cookie :=
  { name := "a", value := "1", domain := "example.com", path := "/", partitionKey := none }

def cookieB : Cookie :=
  { name := "b", value := "2", domain := "example.com", path := "/", partitionKey := none }

def cookieC : Cookie :=
  { name := "c", value := "3", domain := "example.com", path := "/", partitionKey := none }

/-- A partitioned cookie: the browser reports it with a partition key. -/
def partitionedCookie : Cookie :=
  { name := "s", value := "1", domain := "example.com", path := "/",
    partitionKey := some "https://example.com" }

/-- Extension oracle for the fan-out runs: the page holds `cookieA` and
`cookieB`; every other request resolves with a plain empty result. -/
def fanoutOracle : ForwardCmd → ExtResp := fun cmd =>
  if cmd = networkGetCookiesCmd "S1" then ExtResp.ok { cookies := some [cookieA, cookieB] }
  else ExtResp.ok { cookies := none }

/-- Extension oracle for the partition-key run: the page holds exactly the
partitioned cookie. -/
def partitionOracle : ForwardCmd → ExtResp := fun cmd =>
  if cmd = networkGetCookiesCmd "S1" then ExtResp.ok { cookies := some [partitionedCookie] }
  else ExtResp.ok { cookies := none }

/-- Extension oracle for the failing-delete run: the page holds three
cookies and the deletion of `cookieB` rejects; every other request
resolves. -/
def failingDeleteOracle : ForwardCmd → ExtResp := fun cmd =>
  if cmd = networkGetCookiesCmd "S1" then
    ExtResp.ok { cookies := some [cookieA, cookieB, cookieC] }
  else if cmd = networkDeleteCookiesCmd "S1" cookieB then ExtResp.err "delete failed"
  else ExtResp.ok { cookies := none }

/-- Extension oracle that resolves every request with an empty result. -/
def emptyOracle : ForwardCmd → ExtResp := fun _ => ExtResp.ok { cookies := none }

/-- Status environment for the wait runs: the extension connects with two
pages at the second poll. -/
def exampleStatusAt : Nat → Option ExtensionStatusResponse := fun k =>
  if k = 1 then some { connected := true, pageCount := 2, pages := [] } else none

/-! ## Lemmas about the deletion loop -/

/-- When every deletion resolves, the loop issues one `Network.deleteCookies`
request per cookie, in list order, and no error propagates. -/
theorem runDeleteLoop_all_resolve (ext : ForwardCmd → ExtResp) (sid : String) :
    ∀ cs : List Cookie,
      (∀ c ∈ cs, (ext (networkDeleteCookiesCmd sid c)).isOk = true) →
      runDeleteLoop ext sid cs = (cs.map (networkDeleteCookiesCmd sid), none) := by
  intro cs
  induction cs with
  | nil => intro _; rfl
  | cons c rest ih =>
    intro h
    have hc := h c (List.mem_cons_self c rest)
    cases hE : ext (networkDeleteCookiesCmd sid c) with
    | err e => rw [hE] at hc; simp [ExtResp.isOk] at hc
    | ok r =>
      have ih2 := ih (fun p hp => h p (List.mem_cons_of_mem c hp))
      simp [runDeleteLoop, hE, ih2]

/-- When the deletion of `c` rejects after a resolving prefix `pre`, the loop
issues the deletions of `pre` and of `c` only, and propagates the rejection:
the cookies after `c` are never attempted. -/
theorem runDeleteLoop_abort (ext : ForwardCmd → ExtResp) (sid : String) (c : Cookie)
    (rest : List Cookie) (e : String)
    (hc : ext (networkDeleteCookiesCmd sid c) = ExtResp.err e) :
    ∀ pre : List Cookie,
      (∀ p ∈ pre, (ext (networkDeleteCookiesCmd sid p)).isOk = true) →
      runDeleteLoop ext sid (pre ++ c :: rest) =
        (pre.map (networkDeleteCookiesCmd sid) ++ [networkDeleteCookiesCmd sid c], some e) := by
  intro pre
  induction pre with
  | nil => intro _; simp [runDeleteLoop, hc]
  | cons p ps ih =>
    intro h
    have hp := h p (List.mem_cons_self p ps)
    cases hE : ext (networkDeleteCookiesCmd sid p) with
    | err e2 => rw [hE] at hp; simp [ExtResp.isOk] at hp
    | ok r =>
      have ih2 := ih (fun q hq => h q (List.mem_cons_of_mem p hq))
      simp [runDeleteLoop, hE, ih2]

/-! ## Claim C1 -/

/-- C1, counterexample: a `Storage.clearCookies` run over a page holding one
partitioned cookie issues its `Network.deleteCookies` request with only the
name, domain and path of the cookie; no issued request carries the cookie's
partition key, although the claim says each deletion carries it. -/
theorem clearCookies_partitionKey_counterexample :
    (routeCdpCommand partitionOracle exampleRegistry StorageMethod.clearCookies none).1 =
      [networkGetCookiesCmd "S1",
        { sessionId := "S1", method := "Network.deleteCookies",
          params := CdpParams.deleteCookiesParams "s" "example.com" "/" none }] ∧
    partitionedCookie.partitionKey = some "https://example.com" ∧
    (∀ cmd ∈ (routeCdpCommand partitionOracle exampleRegistry StorageMethod.clearCookies none).1,
      cmd.params ≠
        CdpParams.deleteCookiesParams "s" "example.com" "/" (some "https://example.com")) := by
  decide

/-- C1 (amended): for every `Storage.clearCookies` command handled while a
session is available (and whose deletions all resolve), the relay issues
exactly one `Network.getCookies` request, then exactly one
`Network.deleteCookies` request per returned cookie in the iteration order
of the returned list, each carrying that cookie's name, domain and path (no
partition key is sent), and finally returns the empty result; with an empty
returned cookie list the trace is the single `Network.getCookies` call. -/
theorem clearCookies_fanout (ext : ForwardCmd → ExtResp) (reg : List ConnectedTarget)
    (sidOpt : Option String) (sid : String) (cs : List Cookie)
    (hsid : resolveSessionId sidOpt reg = some sid)
    (hget : ext (networkGetCookiesCmd sid) = ExtResp.ok { cookies := some cs })
    (hdel : ∀ c ∈ cs, (ext (networkDeleteCookiesCmd sid c)).isOk = true) :
    routeCdpCommand ext reg StorageMethod.clearCookies sidOpt =
      (networkGetCookiesCmd sid :: cs.map (networkDeleteCookiesCmd sid),
        Except.ok RouteResult.emptyObject) := by
  simp [routeCdpCommand, hsid, hget, runDeleteLoop_all_resolve ext sid cs hdel]

/-- C1, witness: the fan-out theorem applied to a concrete registry and a
page holding two cookies. -/
theorem clearCookies_fanout_witness :
    routeCdpCommand fanoutOracle exampleRegistry StorageMethod.clearCookies none =
      (networkGetCookiesCmd "S1" :: [cookieA, cookieB].map (networkDeleteCookiesCmd "S1"),
        Except.ok RouteResult.emptyObject) :=
  clearCookies_fanout fanoutOracle exampleRegistry none "S1" [cookieA, cookieB]
    (by decide) (by decide) (by decide)

/-! ## Claim C2 -/

/-- C2, counterexample: with three cookies on the page and the second
deletion rejecting, the relay stops after the failing deletion (the third
cookie is never attempted) and returns the error to the client even though
the first deletion succeeded; the claim says it continues and returns the
empty result when at least one deletion succeeded. -/
theorem clearCookies_continue_counterexample :
    routeCdpCommand failingDeleteOracle exampleRegistry StorageMethod.clearCookies none =
      ([networkGetCookiesCmd "S1", networkDeleteCookiesCmd "S1" cookieA,
        networkDeleteCookiesCmd "S1" cookieB], Except.error "delete failed") ∧
    (failingDeleteOracle (networkDeleteCookiesCmd "S1" cookieA)).isOk = true ∧
    networkDeleteCookiesCmd "S1" cookieC ∉
      (routeCdpCommand failingDeleteOracle exampleRegistry StorageMethod.clearCookies none).1 ∧
    (routeCdpCommand failingDeleteOracle exampleRegistry StorageMethod.clearCookies none).2 ≠
      Except.ok RouteResult.emptyObject := by
  decide

/-- C2 (amended): during the `Storage.clearCookies` rewrite, the first
failing `Network.deleteCookies` sub-step aborts the remaining deletions and
its error is returned to the originating client, even when earlier
deletions succeeded; the empty result is returned only when every deletion
resolves. -/
theorem clearCookies_abort_on_error (ext : ForwardCmd → ExtResp) (reg : List ConnectedTarget)
    (sidOpt : Option String) (sid : String) (pre : List Cookie) (c : Cookie)
    (rest : List Cookie) (e : String)
    (hsid : resolveSessionId sidOpt reg = some sid)
    (hget : ext (networkGetCookiesCmd sid) = ExtResp.ok { cookies := some (pre ++ c :: rest) })
    (hpre : ∀ p ∈ pre, (ext (networkDeleteCookiesCmd sid p)).isOk = true)
    (hc : ext (networkDeleteCookiesCmd sid c) = ExtResp.err e) :
    routeCdpCommand ext reg StorageMethod.clearCookies sidOpt =
      (networkGetCookiesCmd sid ::
        (pre.map (networkDeleteCookiesCmd sid) ++ [networkDeleteCookiesCmd sid c]),
        Except.error e) := by
  simp [routeCdpCommand, hsid, hget, runDeleteLoop_abort ext sid c rest e hc pre hpre]

/-- C2, witness: the abort theorem applied to the failing-delete oracle with
one resolving deletion before the failing one. -/
theorem clearCookies_abort_on_error_witness :
    routeCdpCommand failingDeleteOracle exampleRegistry StorageMethod.clearCookies none =
      (networkGetCookiesCmd "S1" ::
        ([cookieA].map (networkDeleteCookiesCmd "S1") ++ [networkDeleteCookiesCmd "S1" cookieB]),
        Except.error "delete failed") :=
  clearCookies_abort_on_error failingDeleteOracle exampleRegistry none "S1" [cookieA] cookieB
    [cookieC] "delete failed" (by decide) (by decide) (by decide) (by decide)

/-! ## Claim C3 -/

/-- C3, counterexample: the relay does answer a sessionless
`Storage.getCookies` with a `-32000` error when no session is available,
but the message is the fixed `No pages available ...` string, which does
not contain the literal substring `no page` the claim requires. -/
theorem noSession_lowercase_counterexample :
    cdpAnswer 3 (routeCdpCommand emptyOracle [] StorageMethod.getCookies none).2 =
      { id := 3, result := none,
        error := some { code := -32000, message := noPagesMessage } } ∧
    ¬ containsSubstring noPagesMessage "no page" := by
  decide

/-- C3 (amended): whenever a Storage cookie command (`Storage.getCookies`,
`Storage.setCookies` or `Storage.clearCookies`) arrives carrying no
sessionId while no session is available, the relay sends nothing to the
extension and answers the originating client with a CDP error of code
`-32000` whose message identifies the missing page context: it contains
`No pages` (the literal `no page` only up to letter case). -/
theorem noSession_error_response (ext : ForwardCmd → ExtResp) (reg : List ConnectedTarget)
    (m : StorageMethod) (requestId : Nat)
    (h : getAnyActiveSessionId reg = none) :
    (routeCdpCommand ext reg m none).1 = [] ∧
    cdpAnswer requestId (routeCdpCommand ext reg m none).2 =
      { id := requestId, result := none,
        error := some { code := -32000, message := noPagesMessage } } ∧
    containsSubstring noPagesMessage "No pages" := by
  have hres : resolveSessionId none reg = none := by simp [resolveSessionId, h]
  refine ⟨?_, ?_, by decide⟩ <;> simp [routeCdpCommand, hres, cdpAnswer]

/-- C3, witness: the no-session theorem applied to the empty registry and a
concrete request id. -/
theorem noSession_error_response_witness :
    (routeCdpCommand emptyOracle [] StorageMethod.clearCookies none).1 = [] ∧
    cdpAnswer 3 (routeCdpCommand emptyOracle [] StorageMethod.clearCookies none).2 =
      { id := 3, result := none,
        error := some { code := -32000, message := noPagesMessage } } ∧
    containsSubstring noPagesMessage "No pages" :=
  noSession_error_response emptyOracle [] StorageMethod.clearCookies 3 (by decide)

/-! ## Lemmas about the issued session id -/

/-- Every request the deletion loop issues is scoped to the resolved
session. -/
theorem runDeleteLoop_sessionId (ext : ForwardCmd → ExtResp) (sid : String) :
    ∀ cs : List Cookie, ∀ cmd ∈ (runDeleteLoop ext sid cs).1, cmd.sessionId = sid := by
  intro cs
  induction cs with
  | nil => intro cmd h; simp [runDeleteLoop] at h
  | cons c rest ih =>
    intro cmd h
    cases hE : ext (networkDeleteCookiesCmd sid c) with
    | err e =>
      simp [runDeleteLoop, hE] at h
      subst h; rfl
    | ok r =>
      simp [runDeleteLoop, hE] at h
      rcases h with h | h
      · subst h; rfl
      · exact ih cmd h

/-- Every request a cookie case of `routeCdpCommand` issues is scoped to
the resolved session. -/
theorem routeCdpCommand_sessionId (ext : ForwardCmd → ExtResp) (reg : List ConnectedTarget)
    (m : StorageMethod) (sidOpt : Option String) (sid : String)
    (hsid : resolveSessionId sidOpt reg = some sid) :
    ∀ cmd ∈ (routeCdpCommand ext reg m sidOpt).1, cmd.sessionId = sid := by
  intro cmd h
  cases m with
  | getCookies =>
    cases hE : ext (networkGetCookiesCmd sid) <;>
      · simp [routeCdpCommand, hsid, hE] at h
        subst h; rfl
  | setCookies cp =>
    cases hE : ext ⟨sid, "Network.setCookies", CdpParams.setCookiesParams (cp.getD [])⟩ <;>
      · simp [routeCdpCommand, hsid, hE] at h
        subst h; rfl
  | clearCookies =>
    cases hE : ext (networkGetCookiesCmd sid) with
    | err e =>
      simp [routeCdpCommand, hsid, hE] at h
      subst h; rfl
    | ok r =>
      cases hD : (runDeleteLoop ext sid (r.cookies.getD [])).2 with
      | none =>
        simp [routeCdpCommand, hsid, hE, hD] at h
        rcases h with h | h
        · subst h; rfl
        · exact runDeleteLoop_sessionId ext sid _ cmd h
      | some e =>
        simp [routeCdpCommand, hsid, hE, hD] at h
        rcases h with h | h
        · subst h; rfl
        · exact runDeleteLoop_sessionId ext sid _ cmd h

/-! ## Claim C4 -/

/-- C4 (confirmed): for every state of the target registry that lists its
entries in attach order, when at least one target has an open session the
session used for a sessionless rewritten cookie command is the one bound to
the earliest-attached such target, and every request the rewrite issues is
scoped to that session; the choice is a function of the registry, hence
deterministic. -/
theorem earliest_attached_session_chosen (l : List AttachedTarget)
    (hord : AttachOrdered l) (hne : l ≠ []) :
    ∃ a ∈ l,
      getAnyActiveSessionId (registryTargets l) = some a.target.sessionId ∧
      (∀ b ∈ l, a.attachOrder ≤ b.attachOrder) ∧
      (∀ (ext : ForwardCmd → ExtResp) (m : StorageMethod),
        ∀ cmd ∈ (routeCdpCommand ext (registryTargets l) m none).1,
          cmd.sessionId = a.target.sessionId) := by
  cases l with
  | nil => exact absurd rfl hne
  | cons a rest =>
    refine ⟨a, List.mem_cons_self a rest, rfl, ?_, ?_⟩
    · intro b hb
      rcases List.mem_cons.mp hb with h | h
      · subst h; exact le_refl _
      · exact le_of_lt ((List.pairwise_cons.mp hord).1 b h)
    · intro ext m cmd hcmd
      refine routeCdpCommand_sessionId ext (registryTargets (a :: rest)) m none
        a.target.sessionId ?_ cmd hcmd
      rfl

/-- C4, witness: the choice theorem applied to a two-target registry
attached in order T1, T2: session S1 of the earlier target is chosen. -/
theorem earliest_attached_session_chosen_witness :
    ∃ a ∈ [({ attachOrder := 0, target := exampleTarget } : AttachedTarget),
        { attachOrder := 1, target := exampleTarget2 }],
      getAnyActiveSessionId (registryTargets
        [({ attachOrder := 0, target := exampleTarget } : AttachedTarget),
          { attachOrder := 1, target := exampleTarget2 }]) = some a.target.sessionId ∧
      (∀ b ∈ [({ attachOrder := 0, target := exampleTarget } : AttachedTarget),
          { attachOrder := 1, target := exampleTarget2 }], a.attachOrder ≤ b.attachOrder) ∧
      (∀ (ext : ForwardCmd → ExtResp) (m : StorageMethod),
        ∀ cmd ∈ (routeCdpCommand ext (registryTargets
            [({ attachOrder := 0, target := exampleTarget } : AttachedTarget),
              { attachOrder := 1, target := exampleTarget2 }]) m none).1,
          cmd.sessionId = a.target.sessionId) :=
  earliest_attached_session_chosen
    [{ attachOrder := 0, target := exampleTarget }, { attachOrder := 1, target := exampleTarget2 }]
    (by decide) (by decide)

/-! ## Claim C5 -/

/-- C5 (confirmed): for every `Storage.getCookies` command handled while a
session is available, the relay sends the extension a single
`Network.getCookies` command with the empty params object (no urls) on the
chosen session, and on reply delivers the extension result unchanged to the
client under the original request id. -/
theorem getCookies_rewrite (ext : ForwardCmd → ExtResp) (reg : List ConnectedTarget)
    (sidOpt : Option String) (sid : String) (r : ExtResult) (requestId : Nat)
    (hsid : resolveSessionId sidOpt reg = some sid)
    (hext : ext (networkGetCookiesCmd sid) = ExtResp.ok r) :
    routeCdpCommand ext reg StorageMethod.getCookies sidOpt =
      ([networkGetCookiesCmd sid], Except.ok (RouteResult.extResult r)) ∧
    (networkGetCookiesCmd sid).params = CdpParams.emptyParams ∧
    cdpAnswer requestId (routeCdpCommand ext reg StorageMethod.getCookies sidOpt).2 =
      { id := requestId, result := some (RouteResult.extResult r), error := none } := by
  have h1 : routeCdpCommand ext reg StorageMethod.getCookies sidOpt =
      ([networkGetCookiesCmd sid], Except.ok (RouteResult.extResult r)) := by
    simp [routeCdpCommand, hsid, hext]
  refine ⟨h1, rfl, ?_⟩
  rw [h1]
  rfl

/-- C5, witness: the rewrite theorem applied to a concrete registry holding
one target and an extension reporting two cookies. -/
theorem getCookies_rewrite_witness :
    routeCdpCommand fanoutOracle exampleRegistry StorageMethod.getCookies none =
      ([networkGetCookiesCmd "S1"],
        Except.ok (RouteResult.extResult { cookies := some [cookieA, cookieB] })) ∧
    (networkGetCookiesCmd "S1").params = CdpParams.emptyParams ∧
    cdpAnswer 1 (routeCdpCommand fanoutOracle exampleRegistry StorageMethod.getCookies none).2 =
      { id := 1, result := some (RouteResult.extResult { cookies := some [cookieA, cookieB] }),
        error := none } :=
  getCookies_rewrite fanoutOracle exampleRegistry none "S1"
    { cookies := some [cookieA, cookieB] } 1 (by decide) (by decide)

/-! ## Claim C6 -/

/-- C6 (confirmed): whenever the initial probe of `/version` succeeds and the
reported version compares greater than or equal to the expected version,
`ensurePersistentRelay` returns `started: false` with the reported version
and the effective port, performing no kill and no spawn. -/
theorem ensureRelay_current_no_restart (env : RelayEnv) (VERSION : String)
    (options : EnsureOptions) (v : String)
    (hprobe : env.existingVersion = some v)
    (hge : compareVersions v VERSION ≥ 0) :
    ensurePersistentRelay env VERSION options =
      ([], Except.ok
        { started := false, version := v, port := options.port.getD DEFAULT_PORT }) := by
  simp [ensurePersistentRelay, hprobe, hge]

/-- C6, witness: the no-restart theorem applied to a probe reporting a
strictly newer version than the expected one. -/
theorem ensureRelay_current_no_restart_witness :
    ensurePersistentRelay { existingVersion := some "0.0.48", polls := [] } "0.0.47" {} =
      ([], Except.ok
        { started := false, version := "0.0.48",
          port := ({} : EnsureOptions).port.getD DEFAULT_PORT }) :=
  ensureRelay_current_no_restart { existingVersion := some "0.0.48", polls := [] }
    "0.0.47" {} "0.0.48" rfl (by decide)

/-! ## Claim C7 -/

/-- When no poll observes the expected version, the poll loop throws the
start error carrying the port. -/
theorem pollForVersion_all_fail (VERSION : String) (port : Nat) :
    ∀ polls : List (Option String), (∀ v ∈ polls, v ≠ some VERSION) →
      pollForVersion VERSION port polls = Except.error (mkRelayServerStartError port) := by
  intro polls
  induction polls with
  | nil => intro _; rfl
  | cons v rest ih =>
    intro h
    have hv := h v (List.mem_cons_self v rest)
    simp [pollForVersion, hv, ih (fun w hw => h w (List.mem_cons_of_mem v hw))]

/-- C7 (confirmed): in every run of `ensurePersistentRelay` that spawns the
detached child, if no post-spawn poll of `/version` observes the expected
version before the timeout elapses, the call fails with a
`RelayServerStartError` carrying the effective port, rather than returning
normally. -/
theorem ensureRelay_start_timeout (env : RelayEnv) (VERSION : String) (options : EnsureOptions)
    (hspawn : RelayAction.spawnDetached ∈ (ensurePersistentRelay env VERSION options).1)
    (hpolls : ∀ v ∈ env.polls, v ≠ some VERSION) :
    (ensurePersistentRelay env VERSION options).2 =
      Except.error (mkRelayServerStartError (options.port.getD DEFAULT_PORT)) ∧
    (mkRelayServerStartError (options.port.getD DEFAULT_PORT)).port =
      options.port.getD DEFAULT_PORT ∧
    (mkRelayServerStartError (options.port.getD DEFAULT_PORT)).name =
      "RelayServerStartError" := by
  refine ⟨?_, rfl, rfl⟩
  cases hE : env.existingVersion with
  | none =>
    simp [ensurePersistentRelay, hE,
      pollForVersion_all_fail VERSION (options.port.getD DEFAULT_PORT) env.polls hpolls]
  | some v =>
    by_cases hge : compareVersions v VERSION ≥ 0
    · exfalso
      have hact : (ensurePersistentRelay env VERSION options).1 = [] := by
        simp [ensurePersistentRelay, hE, hge]
      rw [hact] at hspawn
      simp at hspawn
    · simp [ensurePersistentRelay, hE, hge,
        pollForVersion_all_fail VERSION (options.port.getD DEFAULT_PORT) env.polls hpolls]

/-- C7, witness: the start-timeout theorem applied to a run with no server
initially present and two unsuccessful polls. -/
theorem ensureRelay_start_timeout_witness :
    (ensurePersistentRelay { existingVersion := none, polls := [none, some "0.0.1"] }
        "0.0.47" {}).2 =
      Except.error (mkRelayServerStartError (({} : EnsureOptions).port.getD DEFAULT_PORT)) ∧
    (mkRelayServerStartError (({} : EnsureOptions).port.getD DEFAULT_PORT)).port =
      ({} : EnsureOptions).port.getD DEFAULT_PORT ∧
    (mkRelayServerStartError (({} : EnsureOptions).port.getD DEFAULT_PORT)).name =
      "RelayServerStartError" :=
  ensureRelay_start_timeout { existingVersion := none, polls := [none, some "0.0.1"] }
    "0.0.47" {} (by decide) (by decide)

/-! ## Claim C8 -/

/-- Every `RelayServerError` message embeds the port number: the constructor
appends ` (port N)` to the message. -/
theorem mkRelayServerError_contains_port (msg : String) (port : Nat) :
    containsSubstring (mkRelayServerError msg port).message (toString port) := by
  unfold containsSubstring mkRelayServerError
  refine ⟨("[Playwriter] " ++ msg ++ " (port ").data, (")").data, ?_⟩
  simp [String.data_append]

/-- When the poll at index `k + i` is the first good one among the `fuel`
remaining iterations, the wait loop returns its page count. -/
theorem waitLoop_finds (statusAt : Nat → Option ExtensionStatusResponse) (port : Nat) :
    ∀ (fuel i k : Nat) (status : ExtensionStatusResponse), i < fuel →
      (∀ j, j < i → goodStatus (statusAt (k + j)) = false) →
      statusAt (k + i) = some status → status.connected = true → 0 < status.pageCount →
      waitLoop statusAt port fuel k =
        Except.ok { connected := true, pageCount := status.pageCount } := by
  intro fuel
  induction fuel with
  | zero => intro i k status hi; exact absurd hi (Nat.not_lt_zero i)
  | succ f ih =>
    intro i k status hi hbefore hst hconn hpc
    cases i with
    | zero =>
      have hk : statusAt k = some status := by simpa using hst
      simp [waitLoop, hk, hconn, hpc]
    | succ i2 =>
      have h0 : goodStatus (statusAt k) = false := by simpa using hbefore 0 (Nat.succ_pos i2)
      have hrec := ih i2 (k + 1) status (Nat.lt_of_succ_lt_succ hi)
        (fun j hj => by
          have := hbefore (j + 1) (Nat.succ_lt_succ hj)
          simpa [Nat.add_assoc, Nat.add_comm, Nat.add_left_comm] using this)
        (by
          have : k + 1 + i2 = k + (i2 + 1) := by omega
          rw [this]; exact hst)
        hconn hpc
      cases hsk : statusAt k with
      | none => simp [waitLoop, hsk, hrec]
      | some s =>
        rw [hsk] at h0
        have h0b : (s.connected && decide (0 < s.pageCount)) = false := h0
        simp [waitLoop, hsk, h0b, hrec]

/-- When no poll among the `fuel` remaining iterations is good, the wait
loop throws the extension-not-connected error. -/
theorem waitLoop_exhausted (statusAt : Nat → Option ExtensionStatusResponse) (port : Nat) :
    ∀ (fuel k : Nat), (∀ j, j < fuel → goodStatus (statusAt (k + j)) = false) →
      waitLoop statusAt port fuel k = Except.error (mkExtensionNotConnectedError port) := by
  intro fuel
  induction fuel with
  | zero => intro k _; rfl
  | succ f ih =>
    intro k h
    have h0 : goodStatus (statusAt k) = false := by simpa using h 0 (Nat.succ_pos f)
    have hrec := ih (k + 1) (fun j hj => by
      have := h (j + 1) (Nat.succ_lt_succ hj)
      simpa [Nat.add_assoc, Nat.add_comm, Nat.add_left_comm] using this)
    cases hsk : statusAt k with
    | none => simp [waitLoop, hsk, hrec]
    | some s =>
      rw [hsk] at h0
      have h0b : (s.connected && decide (0 < s.pageCount)) = false := h0
      simp [waitLoop, hsk, h0b, hrec]

/-- C8 (confirmed): `waitForExtension` returns as soon as a poll of
`/extension-status` reports `connected` with a positive page count, and once
its deadline elapses with no such poll it fails with an
`ExtensionNotConnectedError` whose message embeds the port and whose `port`
field is the effective port; its poll interval is taken from the options and
defaults to 500 ms. -/
theorem waitForExtension_spec :
    (∀ (statusAt : Nat → Option ExtensionStatusResponse) (options : WaitOptions)
        (k : Nat) (status : ExtensionStatusResponse),
      k < numPolls (options.timeout.getD 30000) (options.pollInterval.getD 500) →
      (∀ j, j < k → goodStatus (statusAt j) = false) →
      statusAt k = some status → status.connected = true → 0 < status.pageCount →
      waitForExtension statusAt options =
        Except.ok { connected := true, pageCount := status.pageCount }) ∧
    (∀ (statusAt : Nat → Option ExtensionStatusResponse) (options : WaitOptions),
      (∀ k, k < numPolls (options.timeout.getD 30000) (options.pollInterval.getD 500) →
        goodStatus (statusAt k) = false) →
      waitForExtension statusAt options =
        Except.error (mkExtensionNotConnectedError (options.port.getD DEFAULT_PORT)) ∧
      (mkExtensionNotConnectedError (options.port.getD DEFAULT_PORT)).port =
        options.port.getD DEFAULT_PORT ∧
      containsSubstring (mkExtensionNotConnectedError (options.port.getD DEFAULT_PORT)).message
        (toString (options.port.getD DEFAULT_PORT))) ∧
    (∀ (statusAt : Nat → Option ExtensionStatusResponse) (port timeout : Option Nat),
      waitForExtension statusAt { port := port, timeout := timeout, pollInterval := none } =
        waitForExtension statusAt
          { port := port, timeout := timeout, pollInterval := some 500 }) := by
  refine ⟨?_, ?_, ?_⟩
  · intro statusAt options k status hk hbefore hst hconn hpc
    exact waitLoop_finds statusAt (options.port.getD DEFAULT_PORT) _ k 0 status hk
      (fun j hj => by simpa using hbefore j hj) (by simpa using hst) hconn hpc
  · intro statusAt options h
    refine ⟨?_, rfl, mkRelayServerError_contains_port _ _⟩
    exact waitLoop_exhausted statusAt (options.port.getD DEFAULT_PORT) _ 0
      (fun j hj => by simpa using h j hj)
  · intro statusAt port timeout
    rfl

/-- C8, witness: the success case applied to a status environment whose
second poll reports the extension connected with two pages, under the
default options. -/
theorem waitForExtension_spec_witness :
    waitForExtension exampleStatusAt {} = Except.ok { connected := true, pageCount := 2 } :=
  waitForExtension_spec.1 exampleStatusAt {} 1 { connected := true, pageCount := 2, pages := [] }
    (by decide) (by decide) (by decide) rfl (by decide)

/-! ## Claim C9 -/

/-- C9 (confirmed): every response of `GET /extension-status` is the
snapshot `{ connected, pageCount, pages }` in which `connected` is true iff
exactly one extension WebSocket is in the open state, `pageCount` is the
number of targets in the registry, and `pages` projects the target set to
`{ targetId, url, title }` entries. -/
theorem extensionStatus_snapshot (extensionWs : Option WsContext)
    (connectedTargets : List ConnectedTarget) :
    ((extensionStatusHandler extensionWs connectedTargets).connected = true ↔
      openExtensionSocketCount extensionWs = 1) ∧
    (extensionStatusHandler extensionWs connectedTargets).pageCount =
      connectedTargets.length ∧
    (extensionStatusHandler extensionWs connectedTargets).pages =
      connectedTargets.map (fun t =>
        { targetId := t.targetId, url := t.targetInfo.url, title := t.targetInfo.title }) := by
  refine ⟨?_, rfl, rfl⟩
  cases extensionWs <;> simp [extensionStatusHandler, openExtensionSocketCount]

/-! ## Claim C10 -/

/-- The comparison loop against the empty list reduces to the negated rest
loop: the exhausted side reads as zeros. -/
theorem versionCompareLoop_nil_right :
    ∀ l : List Int, versionCompareLoop l [] = -(versionRestLoop l) := by
  intro l
  induction l with
  | nil => simp [versionCompareLoop, versionRestLoop]
  | cons a as ih =>
    by_cases h : a = 0
    · subst h; simpa [versionCompareLoop, versionRestLoop] using ih
    · simp [versionCompareLoop, versionRestLoop, h, Ne.symm h]

/-- Antisymmetry of the comparison loop: swapping the argument lists negates
the result. -/
theorem versionCompareLoop_antisymm :
    ∀ l1 l2 : List Int, versionCompareLoop l1 l2 = -(versionCompareLoop l2 l1) := by
  intro l1
  induction l1 with
  | nil =>
    intro l2
    rw [versionCompareLoop_nil_right l2]
    simp [versionCompareLoop]
  | cons a as ih =>
    intro l2
    cases l2 with
    | nil =>
      rw [versionCompareLoop_nil_right (a :: as)]
      simp [versionCompareLoop]
    | cons b bs =>
      by_cases h : a = b
      · subst h
        simpa [versionCompareLoop] using ih bs
      · simp [versionCompareLoop, h, Ne.symm h]

/-- Appending a zero component to the right list leaves the comparison at
zero: the appended entry is compared against the zero-padded read. -/
theorem versionCompareLoop_append_zero :
    ∀ parts : List Int, versionCompareLoop parts (parts ++ [0]) = 0 := by
  intro parts
  induction parts with
  | nil => simp [versionCompareLoop, versionRestLoop]
  | cons p ps ih => simp [versionCompareLoop, ih]

/-- Splitting after appending `.0` appends a `0` component. -/
theorem splitDotAux_append_dot_zero :
    ∀ (cs : List Char) (acc : List Char),
      splitDotAux (cs ++ ['.', '0']) acc = splitDotAux cs acc ++ ["0"] := by
  intro cs
  induction cs with
  | nil => intro acc; simp [splitDotAux]
  | cons c cs2 ih =>
    intro acc
    by_cases h : c = '.' <;> simp [splitDotAux, h, ih]

/-- JS `(v + ".0").split('.')` is `v.split('.')` with a final `"0"`. -/
theorem splitDot_append_dot_zero (v : String) :
    splitDot (v ++ ".0") = splitDot v ++ ["0"] := by
  unfold splitDot
  rw [String.data_append]
  have h : (".0").data = ['.', '0'] := rfl
  rw [h]
  exact splitDotAux_append_dot_zero v.data []

/-- C10 (confirmed): `compareVersions` pads missing components with zero:
on numeric version strings the two orders of comparison are exact negatives
of each other (opposite signs or both zero); a version extended by a
trailing `.0` compares equal to the original in both directions, in
particular `1.2` against `1.2.0`; and `ensurePersistentRelay` leaves a
running server whose version compares equal to the expected one untouched,
returning `started: false` with no kill and no spawn. -/
theorem compareVersions_spec :
    (∀ a b : String, NumericVersion a → NumericVersion b →
      compareVersions a b = -(compareVersions b a)) ∧
    (∀ v : String, compareVersions v (v ++ ".0") = 0 ∧ compareVersions (v ++ ".0") v = 0) ∧
    compareVersions "1.2" "1.2.0" = 0 ∧
    (∀ (env : RelayEnv) (VERSION : String) (options : EnsureOptions) (v : String),
      env.existingVersion = some v → compareVersions v VERSION = 0 →
      ensurePersistentRelay env VERSION options =
        ([], Except.ok
          { started := false, version := v,
            port := options.port.getD DEFAULT_PORT })) := by
  have htrail : ∀ v : String,
      compareVersions v (v ++ ".0") = 0 ∧ compareVersions (v ++ ".0") v = 0 := by
    intro v
    have hparts : (splitDot (v ++ ".0")).map componentValue =
        (splitDot v).map componentValue ++ [0] := by
      rw [splitDot_append_dot_zero]
      have h0 : componentValue "0" = 0 := by decide
      simp [h0]
    constructor
    · unfold compareVersions
      rw [hparts]
      exact versionCompareLoop_append_zero _
    · unfold compareVersions
      rw [hparts, versionCompareLoop_antisymm]
      rw [versionCompareLoop_append_zero _]
      rfl
  refine ⟨?_, htrail, ?_, ?_⟩
  · intro a b _ _
    exact versionCompareLoop_antisymm _ _
  · decide
  · intro env VERSION options v hprobe h0
    have hge : compareVersions v VERSION ≥ 0 := le_of_eq h0.symm
    simp [ensurePersistentRelay, hprobe, hge]

/-- C10, witness: antisymmetry applied to two concrete numeric versions, and
the no-restart consequence applied to a server reporting `1.2.0` against
expected version `1.2`. -/
theorem compareVersions_spec_witness :
    compareVersions "1.2" "3.4" = -(compareVersions "3.4" "1.2") ∧
    ensurePersistentRelay { existingVersion := some "1.2.0", polls := [] } "1.2" {} =
      ([], Except.ok
        { started := false, version := "1.2.0",
          port := ({} : EnsureOptions).port.getD DEFAULT_PORT }) :=
  ⟨compareVersions_spec.1 "1.2" "3.4" (by decide) (by decide),
    compareVersions_spec.2.2.2 { existingVersion := some "1.2.0", polls := [] }
      "1.2" {} "1.2.0" rfl (by decide)⟩
